import Mathlib

/-!
Verification of `create_pep440_version.py`, a script that converts a
semtag semantic-version identifier into a PEP 440-compliant version
identifier.  The Python source is embedded shallowly: Python strings
become `String`, the regex match becomes an executable matcher over
character lists, raised exceptions become `Except PyError`, and the
command-line wrapper becomes a function from the argument vector to an
outcome value.
-/

/-- Kinds of Python exceptions the script can raise.  `valueError` models
Python `ValueError` (the specification's `InvalidInputError`);
`attributeError` models the `AttributeError` raised when `.groupdict()`
is invoked on the `None` returned by a failed `re.match`;
`assertionError` models a failed `assert` in the built-in self test. -/
inductive PyError where
  | valueError (msg : String)
  | attributeError (msg : String)
  | assertionError (msg : String)
deriving Repr, DecidableEq

/-- Result of `re.match(semver_pattern, s).groupdict()` on a successful
match: the five named capture groups of the semver pattern.  Groups that
did not participate in the match are `none` (Python `None`). -/
structure SemverGroups where
  major : String
  minor : String
  patch : String
  prerelease : Option String
  buildmetadata : Option String
deriving Repr, DecidableEq

/-- Decides whether `pat` occurs as a contiguous substring of the
character list, modelling Python's `pat in s` membership test. -/
def listIsInfix (pat : List Char) : List Char → Bool
  | [] => pat.isEmpty
  | c :: rest => pat.isPrefixOf (c :: rest) || listIsInfix pat rest

/-- Python's substring test `pat in s`. -/
def containsSubstr (s pat : String) : Bool :=
  listIsInfix pat.toList s.toList

/-- Splits a character list at every occurrence of the separator
character, keeping empty pieces, exactly like Python `str.split(sep)`
for a one-character separator (the script only ever splits on "."). -/
def splitOnChar (sep : Char) : List Char → List (List Char)
  | [] => [[]]
  | c :: rest =>
    if c = sep then [] :: splitOnChar sep rest
    else
      match splitOnChar sep rest with
      | [] => [[c]]
      | h :: t => (c :: h) :: t

/-- Python `s.split(sep)` for a one-character separator. -/
def pysplit (s : String) (sep : Char) : List String :=
  (splitOnChar sep s.toList).map String.mk

/-- Character class `[0-9]`.  This is also used for the pattern's `\d`:
in Python 3, `\d` in a `str` pattern matches any Unicode decimal digit
(category Nd), of which the embedding models the ASCII subset.  The
matcher built from it is therefore exact on ASCII inputs and sound on
all inputs (whenever it reports a match, so does the script), but it
can miss matches whose digit runs contain non-ASCII Nd digits. -/
def isDigitChar (c : Char) : Bool :=
  '0' ≤ c && c ≤ '9'

/-- Inputs made of ASCII characters only.  On this set the ASCII
reading of `\d` agrees with Python's Unicode reading, so the embedded
matcher coincides with the script's `re.match` exactly. -/
def isAsciiString (s : String) : Bool :=
  s.toList.all (fun c => c.toNat < 128)

/-- Character class `[a-zA-Z]`. -/
def isAsciiLetter (c : Char) : Bool :=
  ('a' ≤ c && c ≤ 'z') || ('A' ≤ c && c ≤ 'Z')

/-- Character class `[0-9a-zA-Z-]` used by the prerelease and
buildmetadata identifiers of the semver pattern. -/
def isIdentChar (c : Char) : Bool :=
  isDigitChar c || isAsciiLetter c || c = '-'

/-- The regex alternative `0|[1-9]\d*`: a numeric identifier without
leading zeros.  Used for the major, minor and patch components and for
the numeric form of prerelease identifiers. -/
def matchesNumericIdent : List Char → Bool
  | [] => false
  | c :: cs =>
    if c = '0' then cs.isEmpty
    else ('1' ≤ c && c ≤ '9') && cs.all isDigitChar

/-- One prerelease identifier: the regex alternatives
`0|[1-9]\d*|\d*[a-zA-Z-][0-9a-zA-Z-]*`, i.e. either a numeric identifier
without leading zeros, or a nonempty `[0-9a-zA-Z-]` word containing at
least one non-digit character. -/
def matchesPrereleaseIdent (l : List Char) : Bool :=
  matchesNumericIdent l ||
    (!l.isEmpty && l.all isIdentChar && l.any (fun c => isAsciiLetter c || c = '-'))

/-- The prerelease capture group: one or more dot-separated prerelease
identifiers. -/
def matchesPrerelease (p : List Char) : Bool :=
  (splitOnChar '.' p).all matchesPrereleaseIdent

/-- The buildmetadata capture group: one or more dot-separated nonempty
`[0-9a-zA-Z-]` identifiers. -/
def matchesBuildMetadata (b : List Char) : Bool :=
  (splitOnChar '.' b).all (fun seg => !seg.isEmpty && seg.all isIdentChar)

/-- Matches `core` (the part of the input between the leading `v` and
the optional `+buildmetadata`) against
`(0|[1-9]\d*)\.(0|[1-9]\d*)\.(0|[1-9]\d*)(?:-(prerelease))?`.  Since the
release components consist of digits and dots only, the first `-` of
`core`, when present, is necessarily the hyphen introducing the
prerelease group, whose own hyphens are restored by re-intercalating. -/
def matchCoreGroups (core : List Char) (buildmetadata : Option String) :
    Option SemverGroups :=
  match splitOnChar '-' core with
  | [] => none
  | release :: preParts =>
    match splitOnChar '.' release with
    | [mj, mn, pt] =>
      if matchesNumericIdent mj && matchesNumericIdent mn && matchesNumericIdent pt then
        match preParts with
        | [] => some ⟨String.mk mj, String.mk mn, String.mk pt, none, buildmetadata⟩
        | _ :: _ =>
          let pre := List.intercalate ['-'] preParts
          if matchesPrerelease pre then
            some ⟨String.mk mj, String.mk mn, String.mk pt, some (String.mk pre),
              buildmetadata⟩
          else none
      else none
    | _ => none

/-- Matches the whole input against the anchored semver pattern
`^v(major)\.(minor)\.(patch)(?:-(prerelease))?(?:\+(buildmetadata))?$`.
The input must begin with the literal `v`; since no capture group may
contain `+`, the first `+` (when present) separates the core from the
buildmetadata group, and a second `+` makes the match fail. -/
def semverMatchCore (s : String) : Option SemverGroups :=
  match s.toList with
  | 'v' :: rest =>
    match splitOnChar '+' rest with
    | [core] => matchCoreGroups core none
    | [core, build] =>
      if matchesBuildMetadata build then
        matchCoreGroups core (some (String.mk build))
      else none
    | _ => none
  | _ => none

/-- Python `re.match(semver_pattern, s)` where the pattern is anchored
with `^ ... $`: in Python, `$` also matches just before a newline that
is the last character of the string, so a single trailing newline is
tolerated.  Per the note on `isDigitChar`, this matcher reads `\d` as
ASCII: it agrees with the script's `re.match` on every ASCII input and
on every input it reports as matching, but it can return `none` for
non-ASCII inputs whose digit runs use other Unicode Nd digits. -/
def re_match (s : String) : Option SemverGroups :=
  match semverMatchCore s with
  | some g => some g
  | none =>
    match s.toList.getLast? with
    | some c =>
      if c = '\n' then semverMatchCore (String.mk s.toList.dropLast) else none
    | none => none

/-- Message of the `ValueError` raised for inputs that mention unstaged
or uncommitted working-tree changes (typo `uncommited` is verbatim from
the source). -/
def unstableChangesMsg : String :=
  "Cannot create PEP440-compliant version identifier if there are uncommited or unstaged changes."

/-- Message of the `AttributeError` raised by `result.groupdict()` when
`re.match` returned `None`. -/
def groupdictFailureMsg : String :=
  "NoneType object has no attribute groupdict"

/-- The `ValueError` raised by the local `raise_error` helper of
`_get_prerelease_and_dev_segment`. -/
def raiseErrorValue (prerelease : String) : PyError :=
  .valueError ("Do not know how to handle prerelease " ++ prerelease ++ ".")

/-- The dictionary `{"alpha": "a", "beta": "b", "rc": "rc"}` accessed
with `.get`, which yields `None` for unknown keys. -/
def prerelease_cycle_to_short_name (s : String) : Option String :=
  if s = "alpha" then some "a"
  else if s = "beta" then some "b"
  else if s = "rc" then some "rc"
  else none

/-- Embeds `_get_prerelease_and_dev_segment`: from the optional
prerelease capture group, computes the PEP 440 prerelease segment and
development segment, or raises `ValueError` for unrecognized prerelease
shapes.  The `prerelease = ""` test mirrors Python's falsiness of the
empty string in `if prerelease_opt:`. -/
def _get_prerelease_and_dev_segment (prerelease_opt : Option String) :
    Except PyError (String × String) :=
  match prerelease_opt with
  | none => .ok ("", "")
  | some prerelease =>
    if prerelease = "" then .ok ("", "")
    else
      let prerelease_parts := pysplit prerelease '.'
      if prerelease_parts.length = 2 ∨ prerelease_parts.length = 3 then
        match prerelease_cycle_to_short_name (prerelease_parts.headD "") with
        | some short_name =>
          let prerelease_value := prerelease_parts.getD 1 ""
          let prerelease_segment := short_name ++ prerelease_value
          if prerelease_parts.length = 3 then
            .ok (prerelease_segment, ".dev" ++ prerelease_parts.getD 2 "")
          else
            .ok (prerelease_segment, "")
        | none =>
          if prerelease_parts.headD "" = "dev" then
            if prerelease_parts.length = 2 then
              .ok ("", ".dev" ++ prerelease_parts.getD 1 "")
            else .error (raiseErrorValue prerelease)
          else .error (raiseErrorValue prerelease)
      else .error (raiseErrorValue prerelease)

/-- Embeds `_get_local_version_label`: `buildmetadata.partition(".")[0]`
is the prefix before the first dot, here computed as the head of the
dot-split.  The `buildmetadata = ""` test mirrors Python falsiness. -/
def _get_local_version_label (buildmetadata_opt : Option String) : String :=
  match buildmetadata_opt with
  | none => ""
  | some buildmetadata =>
    if buildmetadata = "" then ""
    else
      let commit_hash := (pysplit buildmetadata '.').headD buildmetadata
      "+" ++ commit_hash

/-- The part of `create_pep440_version` that runs after a successful
regex match, operating on the group dictionary: composes the epoch,
release, prerelease, development and local-version segments. -/
def convertGroups (result_dict : SemverGroups) : Except PyError String :=
  let major := result_dict.major
  let minor := result_dict.minor
  let patch := result_dict.patch
  let epoch_segment := major ++ "."
  let release_segment := minor ++ "." ++ patch
  match _get_prerelease_and_dev_segment result_dict.prerelease with
  | .error e => .error e
  | .ok (prerelease_segment, dev_segment) =>
    let local_version_label := _get_local_version_label result_dict.buildmetadata
    .ok (epoch_segment ++ release_segment ++ prerelease_segment ++ dev_segment ++
      local_version_label)

/-- Embeds `create_pep440_version`: rejects inputs mentioning unstaged
or uncommitted changes with `ValueError`, then matches the semver
pattern (a failed match crashes with `AttributeError`, since the code
calls `.groupdict()` on `None` unconditionally), then assembles the
PEP 440 identifier from the capture groups. -/
def create_pep440_version (semtag_version : String) : Except PyError String :=
  if containsSubstr semtag_version "unstaged" ||
      containsSubstr semtag_version "uncommitted" then
    .error (.valueError unstableChangesMsg)
  else
    match re_match semtag_version with
    | none => .error (.attributeError groupdictFailureMsg)
    | some result_dict => convertGroups result_dict

/-- The `semtag_version_to_pep440_version` table of the built-in self
test, in source order. -/
def test_table : List (String × String) :=
  [("v0.14.0-alpha.1.2+f0e563586.feature-MLB-2000-developer-create-python-compatibl",
    "0.14.0a1.dev2+f0e563586"),
   ("v0.14.0-alpha.1.2", "0.14.0a1.dev2"),
   ("v0.14.0-alpha.1", "0.14.0a1"),
   ("v0.14.0-beta.1", "0.14.0b1"),
   ("v0.14.0-rc.1", "0.14.0rc1"),
   ("v0.13.1-dev.1", "0.13.1.dev1"),
   ("v0.14.0", "0.14.0"),
   ("v0.15.0", "0.15.0"),
   ("v1.15.0", "1.15.0")]

/-- Observable outcome of one invocation of the script. -/
inductive CliOutcome where
  /-- `sys.exit(msg)`: the message goes to standard error and the
  process terminates with exit status 1. -/
  | exitError (msg : String)
  /-- A line printed to standard output; the process terminates with
  exit status 0. -/
  | printed (line : String)
  /-- An exception propagated out of `main`: Python prints a traceback
  and terminates with a non-zero exit status. -/
  | raised (e : PyError)
deriving Repr, DecidableEq

/-- Embeds `_test_create_pep440_version`: runs the conversion on every
table entry, propagating conversion exceptions, raising
`AssertionError` on the first mismatch, and printing a success message
otherwise. -/
def runSelfTest : List (String × String) → CliOutcome
  | [] => .printed "Test passed."
  | (semtag_version, expected) :: rest =>
    match create_pep440_version semtag_version with
    | .error e => .raised e
    | .ok v =>
      if v = expected then runSelfTest rest
      else
        .raised (.assertionError
          ("Failure for " ++ semtag_version ++ ". Got " ++ v ++ ". Expected " ++
            expected ++ "."))

/-- Embeds the `__main__` block: `argv` is the full `sys.argv`,
including the program name at index 0. -/
def main_entry (argv : List String) : CliOutcome :=
  let n_argv := argv.length
  if n_argv ≠ 2 then
    .exitError ("Error: Expected 1 argument, got " ++ toString (n_argv - 1) ++ ".")
  else
    let arg := argv.getD 1 ""
    if arg = "test" then runSelfTest test_table
    else
      match create_pep440_version arg with
      | .ok pep440_version => .printed pep440_version
      | .error e => .raised e

/-- Discriminates the spec's single error kind `InvalidInputError`,
which corresponds to the script's `ValueError`. -/
def isInvalidInputError : Except PyError String → Bool
  | .error (.valueError _) => true
  | _ => false

/-! ### Helper lemmas -/

/-- On inputs without the instability markers, the converter is the
regex match followed by group assembly. -/
theorem create_eq_convertGroups (s : String) (g : SemverGroups)
    (hns : (containsSubstr s "unstaged" || containsSubstr s "uncommitted") = false)
    (hm : re_match s = some g) :
    create_pep440_version s = convertGroups g := by
  simp only [create_pep440_version, hns, Bool.false_eq_true, if_false, hm]

/-- A prerelease group that splits into two pieces is not empty. -/
theorem splitTwo_ne_empty (p p0 p1 : String) (hsplit : pysplit p '.' = [p0, p1]) :
    p ≠ "" := by
  intro hcontra
  rw [hcontra] at hsplit
  simp [pysplit, splitOnChar] at hsplit

/-! ### C1: the round-trip table -/

/-- C1: for each of the nine inputs in the spec's round-trip table,
`create_pep440_version` returns exactly the listed PEP 440 string. -/
theorem c1_round_trip_table :
    create_pep440_version
        "v0.14.0-alpha.1.2+f0e563586.feature-MLB-2000-developer-create-python-compatibl" =
      .ok "0.14.0a1.dev2+f0e563586" ∧
    create_pep440_version "v0.14.0-alpha.1.2" = .ok "0.14.0a1.dev2" ∧
    create_pep440_version "v0.14.0-alpha.1" = .ok "0.14.0a1" ∧
    create_pep440_version "v0.14.0-beta.1" = .ok "0.14.0b1" ∧
    create_pep440_version "v0.14.0-rc.1" = .ok "0.14.0rc1" ∧
    create_pep440_version "v0.13.1-dev.1" = .ok "0.13.1.dev1" ∧
    create_pep440_version "v0.14.0" = .ok "0.14.0" ∧
    create_pep440_version "v0.15.0" = .ok "0.15.0" ∧
    create_pep440_version "v1.15.0" = .ok "1.15.0" := by
  refine ⟨rfl, rfl, rfl, rfl, rfl, rfl, rfl, rfl, rfl⟩

/-! ### C2: behaviour on inputs that do not match the grammar -/

/-- C2 counterexample: the ASCII input "x" — on which the embedded
matcher coincides with Python's `re.match` — does not match the semver
pattern, yet the conversion does not fail with the spec's
`InvalidInputError` (the script's `ValueError`): it crashes with an
`AttributeError` because `.groupdict()` is called on the `None` match
result. -/
theorem c2_counterexample :
    isAsciiString "x" = true ∧
    re_match "x" = none ∧
    isInvalidInputError (create_pep440_version "x") = false ∧
    create_pep440_version "x" = .error (.attributeError groupdictFailureMsg) :=
  ⟨rfl, rfl, rfl, rfl⟩

/-- C2 (amended): every ASCII input that does not match the semver
grammar makes the conversion fail, but with `InvalidInputError`
(`ValueError`) only when the input contains an instability marker;
otherwise the failure is an `AttributeError` raised by calling
`.groupdict()` on the `None` returned by the failed match.  The ASCII
hypothesis confines the statement to the inputs on which the embedded
matcher coincides with Python's `re.match` — for non-ASCII inputs the
pattern's `\d` accepts further Unicode digits that the embedding does
not model — and, like the grammar hypothesis, it only scopes the
quantification: the proof never consults it. -/
theorem c2_nonmatching_fails (s : String) (_hascii : isAsciiString s = true)
    (h : re_match s = none) :
    create_pep440_version s =
      .error
        (if containsSubstr s "unstaged" || containsSubstr s "uncommitted" then
          .valueError unstableChangesMsg
        else .attributeError groupdictFailureMsg) := by
  unfold create_pep440_version
  rw [h]
  by_cases hc : (containsSubstr s "unstaged" || containsSubstr s "uncommitted") = true
  · simp [hc]
  · simp [hc]

/-- C2 witness: the amended theorem applied at the ASCII non-matching
input "x". -/
theorem c2_nonmatching_fails_witness :
    create_pep440_version "x" =
      .error
        (if containsSubstr "x" "unstaged" || containsSubstr "x" "uncommitted" then
          .valueError unstableChangesMsg
        else .attributeError groupdictFailureMsg) :=
  c2_nonmatching_fails "x" rfl rfl

/-! ### C3: instability markers are always rejected -/

/-- C3: any input containing the substring "unstaged" or "uncommitted"
anywhere makes the conversion fail with `InvalidInputError`
(`ValueError`), regardless of its grammar. -/
theorem c3_unstable_markers_rejected (s : String)
    (h : (containsSubstr s "unstaged" || containsSubstr s "uncommitted") = true) :
    create_pep440_version s = .error (.valueError unstableChangesMsg) := by
  unfold create_pep440_version
  rw [h]
  rfl

/-- C3 witness: the grammatically valid input "v1.0.0-unstaged.1" is
rejected because it contains "unstaged". -/
theorem c3_unstable_markers_rejected_witness :
    create_pep440_version "v1.0.0-unstaged.1" = .error (.valueError unstableChangesMsg) :=
  c3_unstable_markers_rejected "v1.0.0-unstaged.1" rfl

/-! ### C9: CLI argument-count error -/

/-- C9 counterexample: invoked with zero arguments, the script does
terminate via `sys.exit`, but the diagnostic is
"Error: Expected 1 argument, got 0." — not the bare
"Expected 1 argument, got 0." stated by the claim. -/
theorem c9_counterexample :
    main_entry ["create_pep440_version.py"] =
      .exitError "Error: Expected 1 argument, got 0." ∧
    main_entry ["create_pep440_version.py"] ≠
      .exitError "Expected 1 argument, got 0." := by
  refine ⟨rfl, ?_⟩
  decide

/-- C9 (amended): with an argument count `n` different from 1, the
script terminates with a non-zero exit status and the diagnostic
message "Error: Expected 1 argument, got {n}.". -/
theorem c9_wrong_arg_count (prog : String) (args : List String)
    (h : args.length ≠ 1) :
    main_entry (prog :: args) =
      .exitError ("Error: Expected 1 argument, got " ++ toString args.length ++ ".") := by
  unfold main_entry
  have hlen : (prog :: args).length = args.length + 1 := by simp
  rw [hlen]
  have hne : args.length + 1 ≠ 2 := by omega
  simp [hne]

/-- C9 witness: the amended theorem applied to an invocation with two
arguments. -/
theorem c9_wrong_arg_count_witness :
    main_entry ["create_pep440_version.py", "a", "b"] =
      .exitError ("Error: Expected 1 argument, got " ++ toString ["a", "b"].length ++ ".") :=
  c9_wrong_arg_count "create_pep440_version.py" ["a", "b"] (by decide)

/-! ### Lemmas about the prerelease/dev segment computation -/

/-- A two-part prerelease with a recognized cycle label yields the
prerelease segment `short_name ++ value` and no development segment. -/
theorem getPre_cycle_two (p p0 p1 sc : String)
    (hsplit : pysplit p '.' = [p0, p1])
    (hsc : prerelease_cycle_to_short_name p0 = some sc) :
    _get_prerelease_and_dev_segment (some p) = .ok (sc ++ p1, "") := by
  have hpne := splitTwo_ne_empty p p0 p1 hsplit
  unfold _get_prerelease_and_dev_segment
  simp [hpne, hsplit, hsc]

/-- A three-part prerelease with a recognized cycle label additionally
yields the development segment `.dev` followed by the third part. -/
theorem getPre_cycle_three (p p0 p1 p2 sc : String)
    (hsplit : pysplit p '.' = [p0, p1, p2])
    (hsc : prerelease_cycle_to_short_name p0 = some sc) :
    _get_prerelease_and_dev_segment (some p) = .ok (sc ++ p1, ".dev" ++ p2) := by
  have hpne : p ≠ "" := by
    intro hcontra
    rw [hcontra] at hsplit
    simp [pysplit, splitOnChar] at hsplit
  unfold _get_prerelease_and_dev_segment
  simp [hpne, hsplit, hsc]

/-- A two-part prerelease headed by "dev" yields no prerelease segment
and the development segment `.dev` followed by the second part. -/
theorem getPre_dev_two (p p1 : String)
    (hsplit : pysplit p '.' = ["dev", p1]) :
    _get_prerelease_and_dev_segment (some p) = .ok ("", ".dev" ++ p1) := by
  have hpne := splitTwo_ne_empty p "dev" p1 hsplit
  unfold _get_prerelease_and_dev_segment
  simp [hpne, hsplit, prerelease_cycle_to_short_name]

/-- A three-part prerelease headed by "dev" is rejected. -/
theorem getPre_dev_three (p p1 p2 : String)
    (hsplit : pysplit p '.' = ["dev", p1, p2]) :
    _get_prerelease_and_dev_segment (some p) = .error (raiseErrorValue p) := by
  have hpne : p ≠ "" := by
    intro hcontra
    rw [hcontra] at hsplit
    simp [pysplit, splitOnChar] at hsplit
  unfold _get_prerelease_and_dev_segment
  simp [hpne, hsplit, prerelease_cycle_to_short_name]

/-- A nonempty prerelease with a part count other than 2 or 3 is
rejected. -/
theorem getPre_bad_length (p : String) (hpne : p ≠ "")
    (hlen : ¬((pysplit p '.').length = 2 ∨ (pysplit p '.').length = 3)) :
    _get_prerelease_and_dev_segment (some p) = .error (raiseErrorValue p) := by
  unfold _get_prerelease_and_dev_segment
  simp [hpne, hlen]

/-- A nonempty prerelease whose first part is neither a recognized cycle
label nor "dev" is rejected. -/
theorem getPre_unrecognized (p : String) (hpne : p ≠ "")
    (hcyc : prerelease_cycle_to_short_name ((pysplit p '.').headD "") = none)
    (hdev : (pysplit p '.').headD "" ≠ "dev") :
    _get_prerelease_and_dev_segment (some p) = .error (raiseErrorValue p) := by
  unfold _get_prerelease_and_dev_segment
  by_cases hl : (pysplit p '.').length = 2 ∨ (pysplit p '.').length = 3
  · simp only [List.headD_eq_head?_getD] at hcyc hdev
    simp [hpne, hl, hcyc, hdev]
  · simp [hpne, hl]

/-- Unfolds `convertGroups` when the prerelease/dev computation
succeeds. -/
theorem convertGroups_ok (g : SemverGroups) (ps ds : String)
    (h : _get_prerelease_and_dev_segment g.prerelease = .ok (ps, ds)) :
    convertGroups g =
      .ok (g.major ++ "." ++ (g.minor ++ "." ++ g.patch) ++ ps ++ ds ++
        _get_local_version_label g.buildmetadata) := by
  unfold convertGroups
  rw [h]

/-- Unfolds `convertGroups` when the prerelease/dev computation
raises. -/
theorem convertGroups_err (g : SemverGroups) (e : PyError)
    (h : _get_prerelease_and_dev_segment g.prerelease = .error e) :
    convertGroups g = .error e := by
  unfold convertGroups
  rw [h]

/-! ### C4: only the first buildmetadata segment is used -/

/-- C4 counterexample: for the valid input "v1.2.3+a.1" the second
buildmetadata segment is "1", which is discarded from the local-version
label but nevertheless occurs as a substring of the output "1.2.3+a",
contradicting the claim that later segments "never appear anywhere in
the output". -/
theorem c4_counterexample :
    re_match "v1.2.3+a.1" = some ⟨"1", "2", "3", none, some "a.1"⟩ ∧
    pysplit "a.1" '.' = ["a", "1"] ∧
    create_pep440_version "v1.2.3+a.1" = .ok "1.2.3+a" ∧
    containsSubstr "1.2.3+a" "1" = true :=
  ⟨rfl, rfl, rfl, rfl⟩

/-- C4 (amended): for a marker-free valid input with a nonempty
buildmetadata component, the output equals the conversion of the same
parsed version with buildmetadata removed, followed by "+" and the
first dot-separated buildmetadata segment: later segments are
discarded and never influence the output (though their text may still
occur coincidentally inside it). -/
theorem c4_first_segment_only (s stem : String) (g : SemverGroups) (b : String)
    (hns : (containsSubstr s "unstaged" || containsSubstr s "uncommitted") = false)
    (hm : re_match s = some g) (hb : g.buildmetadata = some b) (hbne : b ≠ "")
    (hstem : convertGroups { g with buildmetadata := none } = .ok stem) :
    create_pep440_version s = .ok (stem ++ "+" ++ (pysplit b '.').headD b) := by
  rw [create_eq_convertGroups s g hns hm]
  cases hpre : _get_prerelease_and_dev_segment g.prerelease with
  | error e =>
    rw [convertGroups_err { g with buildmetadata := none } e hpre] at hstem
    cases hstem
  | ok pd =>
    obtain ⟨ps, ds⟩ := pd
    rw [convertGroups_ok { g with buildmetadata := none } ps ds hpre] at hstem
    rw [convertGroups_ok g ps ds hpre]
    injection hstem with hstem
    rw [← hstem]
    unfold _get_local_version_label
    simp [hb, hbne, String.append_assoc, String.append_empty]

/-- C4 witness: the amended theorem applied to "v1.2.3+abc.def", whose
build-free conversion is "1.2.3". -/
theorem c4_first_segment_only_witness :
    create_pep440_version "v1.2.3+abc.def" =
      .ok ("1.2.3" ++ "+" ++ (pysplit "abc.def" '.').headD "abc.def") :=
  c4_first_segment_only "v1.2.3+abc.def" "1.2.3" ⟨"1", "2", "3", none, some "abc.def"⟩
    "abc.def" rfl rfl rfl (by decide) rfl

/-! ### C5: alpha/beta/rc prereleases -/

/-- C5: for a marker-free valid input whose prerelease splits into 2 or
3 parts with a recognized cycle label (alpha, beta, rc) as first part,
the output is the release, then the prerelease segment
`shortcode ++ part1`, then a development segment `.dev ++ part2` exactly
when a third part exists, then the local-version label. -/
theorem c5_cycle_prerelease (s : String) (g : SemverGroups) (p sc : String)
    (hns : (containsSubstr s "unstaged" || containsSubstr s "uncommitted") = false)
    (hm : re_match s = some g) (hp : g.prerelease = some p)
    (hsc : prerelease_cycle_to_short_name ((pysplit p '.').headD "") = some sc)
    (hlen : (pysplit p '.').length = 2 ∨ (pysplit p '.').length = 3) :
    create_pep440_version s =
      .ok (g.major ++ "." ++ g.minor ++ "." ++ g.patch ++ sc ++ (pysplit p '.').getD 1 "" ++
        (if (pysplit p '.').length = 3 then ".dev" ++ (pysplit p '.').getD 2 "" else "") ++
        _get_local_version_label g.buildmetadata) := by
  rw [create_eq_convertGroups s g hns hm]
  rcases hlen with h2 | h3
  · obtain ⟨p0, p1, hsplit⟩ := List.length_eq_two.mp h2
    rw [hsplit] at hsc
    simp only [List.headD_cons] at hsc
    have hpre := getPre_cycle_two p p0 p1 sc hsplit hsc
    rw [← hp] at hpre
    rw [convertGroups_ok g (sc ++ p1) "" hpre, hsplit]
    simp [String.append_assoc, String.append_empty]
  · obtain ⟨p0, p1, p2, hsplit⟩ := List.length_eq_three.mp h3
    rw [hsplit] at hsc
    simp only [List.headD_cons] at hsc
    have hpre := getPre_cycle_three p p0 p1 p2 sc hsplit hsc
    rw [← hp] at hpre
    rw [convertGroups_ok g (sc ++ p1) (".dev" ++ p2) hpre, hsplit]
    simp [String.append_assoc]

/-- C5 witness: both part counts, at "v0.14.0-alpha.1" (two parts, no
development segment) and "v0.14.0-alpha.1.2" (three parts, development
segment ".dev2"). -/
theorem c5_cycle_prerelease_witness :
    create_pep440_version "v0.14.0-alpha.1" = .ok "0.14.0a1" ∧
    create_pep440_version "v0.14.0-alpha.1.2" = .ok "0.14.0a1.dev2" :=
  ⟨(c5_cycle_prerelease "v0.14.0-alpha.1" ⟨"0", "14", "0", some "alpha.1", none⟩
      "alpha.1" "a" rfl rfl rfl rfl (Or.inl rfl)).trans rfl,
   (c5_cycle_prerelease "v0.14.0-alpha.1.2" ⟨"0", "14", "0", some "alpha.1.2", none⟩
      "alpha.1.2" "a" rfl rfl rfl rfl (Or.inr rfl)).trans rfl⟩

/-! ### C6: dev prereleases -/

/-- C6: for a marker-free valid input whose prerelease starts with the
part "dev": with exactly 2 parts the output has no prerelease segment
and gains the development segment `.dev ++ part1`; with 3 parts the
conversion fails with `InvalidInputError` (`ValueError`). -/
theorem c6_dev_prerelease (s : String) (g : SemverGroups) (p : String)
    (hns : (containsSubstr s "unstaged" || containsSubstr s "uncommitted") = false)
    (hm : re_match s = some g) (hp : g.prerelease = some p)
    (hdev : (pysplit p '.').headD "" = "dev") :
    ((pysplit p '.').length = 2 →
      create_pep440_version s =
        .ok (g.major ++ "." ++ g.minor ++ "." ++ g.patch ++ ".dev" ++
          (pysplit p '.').getD 1 "" ++ _get_local_version_label g.buildmetadata)) ∧
    ((pysplit p '.').length = 3 →
      create_pep440_version s = .error (raiseErrorValue p)) := by
  rw [create_eq_convertGroups s g hns hm]
  constructor
  · intro h2
    obtain ⟨p0, p1, hsplit⟩ := List.length_eq_two.mp h2
    rw [hsplit] at hdev
    simp only [List.headD_cons] at hdev
    subst hdev
    have hpre := getPre_dev_two p p1 hsplit
    rw [← hp] at hpre
    rw [convertGroups_ok g "" (".dev" ++ p1) hpre, hsplit]
    simp [String.append_assoc, String.append_empty, String.empty_append]
  · intro h3
    obtain ⟨p0, p1, p2, hsplit⟩ := List.length_eq_three.mp h3
    rw [hsplit] at hdev
    simp only [List.headD_cons] at hdev
    subst hdev
    have hpre := getPre_dev_three p p1 p2 hsplit
    rw [← hp] at hpre
    exact convertGroups_err g (raiseErrorValue p) hpre

/-- C6 witness: the two-part case at "v0.13.1-dev.1" and the three-part
failure at "v1.0.0-dev.1.2". -/
theorem c6_dev_prerelease_witness :
    create_pep440_version "v0.13.1-dev.1" = .ok "0.13.1.dev1" ∧
    create_pep440_version "v1.0.0-dev.1.2" = .error (raiseErrorValue "dev.1.2") :=
  ⟨((c6_dev_prerelease "v0.13.1-dev.1" ⟨"0", "13", "1", some "dev.1", none⟩
      "dev.1" rfl rfl rfl rfl).1 rfl).trans rfl,
   (c6_dev_prerelease "v1.0.0-dev.1.2" ⟨"1", "0", "0", some "dev.1.2", none⟩
      "dev.1.2" rfl rfl rfl rfl).2 rfl⟩

/-! ### C7 and C8: rejected prerelease shapes -/

/-- C7: for a valid input whose (nonempty) prerelease splits into a
number of parts other than 2 or 3, the conversion fails with
`InvalidInputError` (`ValueError`) — whether or not the input also
contains an instability marker. -/
theorem c7_bad_part_count (s : String) (g : SemverGroups) (p : String)
    (hm : re_match s = some g) (hp : g.prerelease = some p) (hpne : p ≠ "")
    (hlen : ¬((pysplit p '.').length = 2 ∨ (pysplit p '.').length = 3)) :
    isInvalidInputError (create_pep440_version s) = true := by
  by_cases hc : (containsSubstr s "unstaged" || containsSubstr s "uncommitted") = true
  · simp [create_pep440_version, hc, isInvalidInputError]
  · have hns : (containsSubstr s "unstaged" || containsSubstr s "uncommitted") = false := by
      simpa using hc
    rw [create_eq_convertGroups s g hns hm]
    have hpre := getPre_bad_length p hpne hlen
    rw [← hp] at hpre
    rw [convertGroups_err g (raiseErrorValue p) hpre]
    rfl

/-- C7 witness: the single-part prerelease "alpha". -/
theorem c7_bad_part_count_witness :
    isInvalidInputError (create_pep440_version "v1.0.0-alpha") = true :=
  c7_bad_part_count "v1.0.0-alpha" ⟨"1", "0", "0", some "alpha", none⟩ "alpha"
    rfl rfl (by decide) (by decide)

/-- C8: for a valid input whose (nonempty) prerelease's first
dot-segment is none of alpha, beta, rc, dev, the conversion fails with
`InvalidInputError` (`ValueError`) — whether or not the input also
contains an instability marker. -/
theorem c8_unrecognized_label (s : String) (g : SemverGroups) (p : String)
    (hm : re_match s = some g) (hp : g.prerelease = some p) (hpne : p ≠ "")
    (hcyc : prerelease_cycle_to_short_name ((pysplit p '.').headD "") = none)
    (hdev : (pysplit p '.').headD "" ≠ "dev") :
    isInvalidInputError (create_pep440_version s) = true := by
  by_cases hc : (containsSubstr s "unstaged" || containsSubstr s "uncommitted") = true
  · simp [create_pep440_version, hc, isInvalidInputError]
  · have hns : (containsSubstr s "unstaged" || containsSubstr s "uncommitted") = false := by
      simpa using hc
    rw [create_eq_convertGroups s g hns hm]
    have hpre := getPre_unrecognized p hpne hcyc hdev
    rw [← hp] at hpre
    rw [convertGroups_err g (raiseErrorValue p) hpre]
    rfl

/-- C8 witness: the unrecognized cycle label "foo". -/
theorem c8_unrecognized_label_witness :
    isInvalidInputError (create_pep440_version "v1.0.0-foo.1") = true :=
  c8_unrecognized_label "v1.0.0-foo.1" ⟨"1", "0", "0", some "foo.1", none⟩ "foo.1"
    rfl rfl (by decide) rfl (by decide)

/-! ### C10: prerelease values are copied without a numeric check -/

/-- C10 counterexample: "v1.0.0-alpha.unstagedx" is grammar-valid, its
prerelease is "alpha" followed by the non-numeric identifier
"unstagedx", yet the conversion does not succeed: the instability-marker
check fires first, because the identifier contains "unstaged". -/
theorem c10_counterexample :
    re_match "v1.0.0-alpha.unstagedx" =
      some ⟨"1", "0", "0", some "alpha.unstagedx", none⟩ ∧
    pysplit "alpha.unstagedx" '.' = ["alpha", "unstagedx"] ∧
    "unstagedx".toList.all isDigitChar = false ∧
    create_pep440_version "v1.0.0-alpha.unstagedx" =
      .error (.valueError unstableChangesMsg) :=
  ⟨rfl, rfl, rfl, rfl⟩

/-- C10 (amended): for a marker-free valid input whose prerelease is a
recognized label followed by one more identifier, conversion succeeds
and copies the identifier verbatim after the shortcode (or after
".dev"), with no check that the identifier is numeric: the
non-numericity hypothesis is never consulted. -/
theorem c10_nonnumeric_values_copied (s : String) (g : SemverGroups)
    (p p0 p1 seg : String)
    (hns : (containsSubstr s "unstaged" || containsSubstr s "uncommitted") = false)
    (hm : re_match s = some g) (hp : g.prerelease = some p)
    (hsplit : pysplit p '.' = [p0, p1])
    (_hnonnum : p1.toList.all isDigitChar = false)
    (hcase : prerelease_cycle_to_short_name p0 = some seg ∨
      (p0 = "dev" ∧ seg = ".dev")) :
    create_pep440_version s =
      .ok (g.major ++ "." ++ g.minor ++ "." ++ g.patch ++ seg ++ p1 ++
        _get_local_version_label g.buildmetadata) := by
  rw [create_eq_convertGroups s g hns hm]
  rcases hcase with hsc | ⟨hdev, hseg⟩
  · have hpre := getPre_cycle_two p p0 p1 seg hsplit hsc
    rw [← hp] at hpre
    rw [convertGroups_ok g (seg ++ p1) "" hpre]
    simp [String.append_assoc, String.append_empty]
  · subst hdev
    subst hseg
    have hpre := getPre_dev_two p p1 hsplit
    rw [← hp] at hpre
    rw [convertGroups_ok g "" (".dev" ++ p1) hpre]
    simp [String.append_assoc, String.append_empty, String.empty_append]

/-- C10 witness: "v1.0.0-alpha.foo" yields "1.0.0afoo" and
"v1.0.0-dev.foo" yields "1.0.0.devfoo". -/
theorem c10_nonnumeric_values_copied_witness :
    create_pep440_version "v1.0.0-alpha.foo" = .ok "1.0.0afoo" ∧
    create_pep440_version "v1.0.0-dev.foo" = .ok "1.0.0.devfoo" :=
  ⟨(c10_nonnumeric_values_copied "v1.0.0-alpha.foo"
      ⟨"1", "0", "0", some "alpha.foo", none⟩ "alpha.foo" "alpha" "foo" "a"
      rfl rfl rfl rfl rfl (Or.inl rfl)).trans rfl,
   (c10_nonnumeric_values_copied "v1.0.0-dev.foo"
      ⟨"1", "0", "0", some "dev.foo", none⟩ "dev.foo" "dev" "foo" ".dev"
      rfl rfl rfl rfl rfl (Or.inr ⟨rfl, rfl⟩)).trans rfl⟩
